import Mathlib

/-!
Shallow embedding of the ubo_doom embedding shim
(src/third_party/DOOM-master/linuxdoom-1.10/doom_api.c and i_video_ubo.c).

The wrapped DOOM engine itself is an external collaborator (its sources are
not part of the adaptation layer under verification); every engine entry
point invoked inside a trap-protected region is abstracted as an unknown
transformation of the engine's global state together with an outcome saying
whether the region completed normally, was aborted by a hardware trap
(SIGSEGV/SIGBUS caught by doom_crash_handler + sigsetjmp), or was aborted by
the software trap (I_Error's longjmp through ubo_error_jmp).  The shim's own
control flow — the lines of doom_api.c — is translated statement by
statement.
-/

namespace UboDoom

/-- Discrete event tag: ev_keydown / ev_keyup (d_event.h, engine side).
Modelled from the spec: the Input Bridge appends discrete press/release
events; we use an inductive tag rather than the engine's numeric enum. -/
inductive EvType where
  | keydown
  | keyup
deriving DecidableEq

/-- An engine event_t as filled in by doom_key_down / doom_key_up. -/
structure Event where
  etype : EvType
  data1 : Int
  data2 : Int
  data3 : Int
deriving DecidableEq

/-- External (engine) entry points the shim can invoke, recorded as a call
trace so that "tears down audio only", "never calls I_Quit", "attempts
start-up" are statable. -/
inductive ExtCall where
  | dDoomMain
  | iInitGraphics
  | iShutdownSound
  | iQuit
  | iStartFrame
  | iStartTic
  | dProcessEvents
  | gBuildTiccmd
  | dDoAdvanceDemo
  | mTicker
  | gTicker
  | sUpdateSounds (withPos : Bool)
  | dDisplay
  | iUpdateSound
  | iSubmitSound
  | dPostEvent (e : Event)
deriving DecidableEq

/-- The engine globals the shim reads or writes directly (gametic, maketic,
singletics, advancedemo, the key bindings, wadfiles, the event queue,
players[consoleplayer].mo presence), plus `rest` standing for all other
engine state (zone heap, render tables, ...) that trap-aborted regions may
leave in an arbitrary condition. -/
structure EngineGlobals where
  gametic : Int
  maketic : Int
  singletics : Bool
  advancedemo : Bool
  playerHasMo : Bool
  key_fire : Int
  key_right : Int
  key_left : Int
  key_up : Int
  key_down : Int
  wadfiles : List String
  events : List Event
  rest : Nat
deriving DecidableEq

/-- The shim's own globals in doom_api.c: g_inited (0 = not started,
1 = ok, -1 = failed), ubo_library_mode, the two resumption-point validity
flags ubo_error_jmp_valid / g_crash_jmp_valid, and the argv storage. -/
structure DoomState where
  g_inited : Int
  ubo_library_mode : Int
  ubo_error_jmp_valid : Int
  g_crash_jmp_valid : Int
  myargs : List String
  eng : EngineGlobals
deriving DecidableEq

/-- Modelled from the spec: the engine's internal keycode space (doomkeys.h
is not among the shim sources); the spec treats the keycodes as opaque
engine constants, so we fix the engine's concrete values — any distinct
values would do, no claim depends on them. -/
def KEY_UPARROW : Int := 0xad

/-- Modelled from the spec: engine keycode constant (see KEY_UPARROW). -/
def KEY_DOWNARROW : Int := 0xaf

/-- Modelled from the spec: engine keycode constant (see KEY_UPARROW). -/
def KEY_LEFTARROW : Int := 0xac

/-- Modelled from the spec: engine keycode constant (see KEY_UPARROW). -/
def KEY_RIGHTARROW : Int := 0xae

/-- Modelled from the spec: engine keycode constant (see KEY_UPARROW). -/
def KEY_RCTRL : Int := 0x9d

/-- Modelled from the spec: engine keycode constant (see KEY_UPARROW). -/
def KEY_ESCAPE : Int := 27

/-- map_ubo_key (doom_api.c:81-94).  ubo_key_t is a C enum with underlying
int values UBO_KEY_UP = 1 .. UBO_KEY_ESCAPE = 7 (doom_api.h); the switch
default returns 0 for every other int. -/
def map_ubo_key (key : Int) : Int :=
  if key = 1 then KEY_UPARROW
  else if key = 2 then KEY_DOWNARROW
  else if key = 3 then KEY_LEFTARROW
  else if key = 4 then KEY_RIGHTARROW
  else if key = 5 then KEY_RCTRL
  else if key = 6 then 32
  else if key = 7 then KEY_ESCAPE
  else 0

/-- What the engine does during a trap-protected region: it completes
normally, or a hardware trap (SIGSEGV/SIGBUS) fires, or the software trap
(I_Error longjmp) fires.  The transformations record the engine-global
effects; for `normal` there are two segments (for doom_init: D_DoomMain
then I_InitGraphics; for doom_tick: the sub-calls before the shim's own
gametic++/maketic++ lines and those after), for a trap the single
transformation is whatever incomplete effects the engine performed before
the trap fired — the shim never rolls these back. -/
inductive RunOutcome where
  | normal (f g : EngineGlobals → EngineGlobals)
  | hwTrap (f : EngineGlobals → EngineGlobals)
  | swTrap (f : EngineGlobals → EngineGlobals)

/-- doom_init (doom_api.c:96-188).  Returns (status, new state, engine
entry points invoked).  Mirrors the source order: the g_inited == 1 and
g_inited == -1 checks, then the null-path check, then argv construction,
arming of both guards, the protected start-up region (D_DoomMain +
I_InitGraphics), and on success disarming, singletics = true and the forced
key bindings.  On a trap: disarm both guards, g_inited = -1, return -1.
The OS-level signal-handler disposition (sigaction save/restore and the
persistent re-install) is not part of the state; the claims concern the two
resumption-point validity flags, which are modelled exactly. -/
def doom_init (s : DoomState) (iwad_path : Option String) (out : RunOutcome) :
    Int × DoomState × List ExtCall :=
  if s.g_inited = 1 then (0, s, [])
  else if s.g_inited = -1 then (-1, s, [])
  else
    match iwad_path with
    | none => (-1, s, [])
    | some path =>
      let s1 : DoomState :=
        { s with ubo_library_mode := 1, myargs := ["ubodoom", "-iwad", path] }
      let s2 : DoomState := { s1 with g_crash_jmp_valid := 1, ubo_error_jmp_valid := 1 }
      match out with
      | .hwTrap f =>
          (-1, { s2 with eng := f s2.eng, g_crash_jmp_valid := 0,
                         ubo_error_jmp_valid := 0, g_inited := -1 },
           [.dDoomMain])
      | .swTrap f =>
          (-1, { s2 with eng := f s2.eng, g_crash_jmp_valid := 0,
                         ubo_error_jmp_valid := 0, g_inited := -1 },
           [.dDoomMain])
      | .normal f g =>
          let e1 := g (f s2.eng)
          let e2 : EngineGlobals :=
            { e1 with singletics := true, key_fire := KEY_RCTRL,
                      key_right := KEY_RIGHTARROW, key_left := KEY_LEFTARROW,
                      key_up := KEY_UPARROW, key_down := KEY_DOWNARROW }
          (0, { s2 with eng := e2, g_crash_jmp_valid := 0,
                        ubo_error_jmp_valid := 0, g_inited := 1 },
           [.dDoomMain, .iInitGraphics])

/-- The engine entry points invoked by a normally completing doom_tick, in
source order (doom_api.c:221-241).  The advancedemo and
players[consoleplayer].mo conditions are evaluated on the entry state; in
the source they are read mid-sequence, after earlier sub-calls may have
changed them — those changes are part of the abstract engine
transformation, which the call trace does not depend on. -/
def tickCalls (e : EngineGlobals) : List ExtCall :=
  [.iStartFrame, .iStartTic, .dProcessEvents, .gBuildTiccmd] ++
  (if e.advancedemo then [.dDoAdvanceDemo] else []) ++
  [.mTicker, .gTicker, .sUpdateSounds e.playerHasMo, .dDisplay,
   .iUpdateSound, .iSubmitSound]

/-- doom_tick (doom_api.c:190-245).  No-op unless g_inited == 1.  Arms both
guards, runs the protected tick sequence; the shim's own gametic++ and
maketic++ lie between the G_Ticker segment and the audio/display segment.
On a trap: disarm both guards, g_inited = -1, return (the trace of
sub-calls completed before the trap is abstracted into the trap's
engine transformation). -/
def doom_tick (s : DoomState) (out : RunOutcome) : DoomState × List ExtCall :=
  if s.g_inited = 1 then
    let s1 : DoomState := { s with ubo_error_jmp_valid := 1, g_crash_jmp_valid := 1 }
    match out with
    | .hwTrap f =>
        ({ s1 with eng := f s1.eng, g_crash_jmp_valid := 0,
                   ubo_error_jmp_valid := 0, g_inited := -1 }, [])
    | .swTrap f =>
        ({ s1 with eng := f s1.eng, g_crash_jmp_valid := 0,
                   ubo_error_jmp_valid := 0, g_inited := -1 }, [])
    | .normal f g =>
        let e1 := f s1.eng
        let e2 : EngineGlobals := { e1 with gametic := e1.gametic + 1, maketic := e1.maketic + 1 }
        let e3 := g e2
        ({ s1 with eng := e3, g_crash_jmp_valid := 0, ubo_error_jmp_valid := 0 },
         tickCalls s.eng)
  else (s, [])

/-- doom_shutdown (doom_api.c:247-254).  `if (!g_inited) return;` — a C
truth test, so the early return happens only when g_inited == 0; otherwise
it calls I_ShutdownSound (never I_Quit) and sets g_inited = 0. -/
def doom_shutdown (s : DoomState) : DoomState × List ExtCall :=
  if s.g_inited = 0 then (s, [])
  else ({ s with g_inited := 0 }, [.iShutdownSound])

/-- doom_key_down (doom_api.c:256-266).  Unconditional: maps the key and
posts one ev_keydown event.  D_PostEvent is engine code (d_main.c, not
among the shim sources); modelled from the spec: it appends the event to
the engine's event queue. -/
def doom_key_down (s : DoomState) (key : Int) : DoomState × List ExtCall :=
  let ev : Event := ⟨.keydown, map_ubo_key key, 0, 0⟩
  ({ s with eng := { s.eng with events := s.eng.events ++ [ev] } },
   [.dPostEvent ev])

/-- doom_key_up (doom_api.c:268-278), as doom_key_down with ev_keyup. -/
def doom_key_up (s : DoomState) (key : Int) : DoomState × List ExtCall :=
  let ev : Event := ⟨.keyup, map_ubo_key key, 0, 0⟩
  ({ s with eng := { s.eng with events := s.eng.events ++ [ev] } },
   [.dPostEvent ev])

/-- doom_is_alive (doom_api.c:283): g_inited == 1. -/
def doom_is_alive (s : DoomState) : Bool := s.g_inited == 1

/-- doom_get_rgba_width (doom_api.c:281). -/
def doom_get_rgba_width : Int := 320

/-- doom_get_rgba_height (doom_api.c:282). -/
def doom_get_rgba_height : Int := 200

/-- doom_reset (doom_api.c:285-306): g_inited = 0, both guard flags
cleared, wadfiles zeroed (memset), gametic = maketic = 0. -/
def doom_reset (s : DoomState) : DoomState :=
  { s with g_inited := 0, ubo_error_jmp_valid := 0, g_crash_jmp_valid := 0,
           eng := { s.eng with wadfiles := [], gametic := 0, maketic := 0 } }

/-- One host-level API call, with the engine outcome for the calls that
enter a protected region. -/
inductive ApiCall where
  | init (path : Option String) (out : RunOutcome)
  | tick (out : RunOutcome)
  | shutdown
  | keyDown (k : Int)
  | keyUp (k : Int)
  | reset

/-- The state reached after one API call (call traces dropped). -/
def apiStep (s : DoomState) : ApiCall → DoomState
  | .init p out => (doom_init s p out).2.1
  | .tick out => (doom_tick s out).1
  | .shutdown => (doom_shutdown s).1
  | .keyDown k => (doom_key_down s k).1
  | .keyUp k => (doom_key_up s k).1
  | .reset => doom_reset s

/-- The state reached after a sequence of API calls. -/
def run (s : DoomState) (cs : List ApiCall) : DoomState := cs.foldl apiStep s

/-- Engine globals at process start (C zero-initialised statics; the exact
values are irrelevant to the claims, which quantify over states). -/
def eng0 : EngineGlobals :=
  { gametic := 0, maketic := 0, singletics := false, advancedemo := false,
    playerHasMo := false, key_fire := 0, key_right := 0, key_left := 0,
    key_up := 0, key_down := 0, wadfiles := [], events := [], rest := 0 }

/-- The shim's state at process start: g_inited = 0, both guards disarmed. -/
def s0 : DoomState :=
  { g_inited := 0, ubo_library_mode := 0, ubo_error_jmp_valid := 0,
    g_crash_jmp_valid := 0, myargs := [], eng := eng0 }

/-- A representative Ready session. -/
def sReady : DoomState := { s0 with g_inited := 1 }

/-- A representative Faulted session. -/
def sFaulted : DoomState := { s0 with g_inited := -1 }

/-- The Frame Sink's state (i_video_ubo.c statics): g_inited and g_palette.
A palette is modelled as a byte lookup (offset in the 256*3 palette block
to byte value); NULL is `none`. -/
structure VideoState where
  g_inited : Bool
  g_palette : Option (Nat → Nat)

/-- I_InitGraphics (i_video_ubo.c:20-27).  W_CacheLumpName("PLAYPAL") is an
engine call whose returned palette block is the parameter `wadPal`. -/
def I_InitGraphics (vs : VideoState) (wadPal : Nat → Nat) : VideoState :=
  if vs.g_inited then vs else { g_inited := true, g_palette := some wadPal }

/-- I_SetPalette (i_video_ubo.c:34-39): stores the engine's palette
reference. -/
def I_SetPalette (vs : VideoState) (palette : Option (Nat → Nat)) : VideoState :=
  { vs with g_palette := palette }

/-- One iteration of the I_FinishUpdate conversion loop body
(i_video_ubo.c:56-63): pixel i writes dst[i*4 .. i*4+3]. -/
def writePixel (pal src dst : Nat → Nat) (i : Nat) : Nat → Nat :=
  fun j =>
    if j = i * 4 then pal (src i * 3)
    else if j = i * 4 + 1 then pal (src i * 3 + 1)
    else if j = i * 4 + 2 then pal (src i * 3 + 2)
    else if j = i * 4 + 3 then 255
    else dst j

/-- The conversion loop after n iterations (pixels 0 .. n-1 written). -/
def convertLoop (pal src dst : Nat → Nat) : Nat → Nat → Nat
  | 0 => dst
  | n + 1 => writePixel pal src (convertLoop pal src dst n) n

/-- The Frame Sink state after I_FinishUpdate's lazy-init line
(i_video_ubo.c:49). -/
def vsAfterInit (vs : VideoState) (wadPal : Nat → Nat) : VideoState :=
  if vs.g_inited then vs else I_InitGraphics vs wadPal

/-- I_FinishUpdate (i_video_ubo.c:47-64).  `src` is screens[0] (one byte
per pixel), `dst` the prior contents of ubo_rgba; returns the new video
state and the new ubo_rgba contents.  If g_palette is NULL after the
lazy init, returns without writing. -/
def I_FinishUpdate (vs : VideoState) (wadPal src dst : Nat → Nat) :
    VideoState × (Nat → Nat) :=
  let vs1 := vsAfterInit vs wadPal
  match vs1.g_palette with
  | none => (vs1, dst)
  | some pal => (vs1, convertLoop pal src dst (320 * 200))

/-- Holds of an API call iff it is an initialize call. -/
def isInitCall : ApiCall → Prop
  | .init _ _ => True
  | _ => False

/-- C10: doom_init checks the session state before validating its argument:
for every path (including none), while Ready it returns 0 and while Faulted
it returns -1, in both cases leaving the state unchanged and invoking no
engine entry point; the path is only examined when Uninitialized. -/
theorem init_checks_state_before_path (s : DoomState) (p : Option String)
    (out : RunOutcome) :
    (s.g_inited = 1 → doom_init s p out = (0, s, [])) ∧
    (s.g_inited = -1 → doom_init s p out = (-1, s, [])) := by
  constructor
  · intro h; simp [doom_init, h]
  · intro h; simp [doom_init, h]

/-- C10 witness: the state-first check at concrete Ready and Faulted
sessions with an absent path. -/
theorem init_checks_state_before_path_witness :
    doom_init sReady none (RunOutcome.normal id id) = (0, sReady, []) ∧
    doom_init sFaulted none (RunOutcome.normal id id) = (-1, sFaulted, []) :=
  ⟨(init_checks_state_before_path sReady none (RunOutcome.normal id id)).1 rfl,
   (init_checks_state_before_path sFaulted none (RunOutcome.normal id id)).2 rfl⟩

/-- C7: doom_init is idempotent while Ready: any further initialize call
(any path, any engine outcome) returns 0 with the state unchanged and no
engine entry point invoked, and any sequence of initialize calls leaves the
state unchanged. -/
theorem init_idempotent_while_ready (s : DoomState) (hs : s.g_inited = 1) :
    (∀ p out, doom_init s p out = (0, s, [])) ∧
    (∀ cs : List ApiCall, (∀ c ∈ cs, isInitCall c) → run s cs = s) := by
  have h1 : ∀ p out, doom_init s p out = (0, s, []) := by
    intro p out; simp [doom_init, hs]
  refine ⟨h1, ?_⟩
  intro cs
  induction cs with
  | nil => intro _; rfl
  | cons c cs ih =>
    intro hcs
    have hc := hcs c (List.mem_cons_self c cs)
    have htail : ∀ c2 ∈ cs, isInitCall c2 :=
      fun c2 hc2 => hcs c2 (List.mem_cons_of_mem _ hc2)
    cases c with
    | init p out =>
      have hstep : apiStep s (ApiCall.init p out) = s := by
        simp [apiStep, h1]
      calc run s (ApiCall.init p out :: cs)
          = run (apiStep s (ApiCall.init p out)) cs := by
            simp [run, List.foldl_cons]
        _ = run s cs := by rw [hstep]
        _ = s := ih htail
    | tick out => exact hc.elim
    | shutdown => exact hc.elim
    | keyDown k => exact hc.elim
    | keyUp k => exact hc.elim
    | reset => exact hc.elim

/-- C7 witness: repeated initialize at a concrete Ready session. -/
theorem init_idempotent_while_ready_witness :
    doom_init sReady (some "doom.wad") (RunOutcome.normal id id) = (0, sReady, []) ∧
    run sReady [ApiCall.init (some "doom.wad") (RunOutcome.normal id id),
                ApiCall.init none (RunOutcome.normal id id)] = sReady :=
  ⟨(init_idempotent_while_ready sReady rfl).1 (some "doom.wad") (RunOutcome.normal id id),
   (init_idempotent_while_ready sReady rfl).2 _ (by
      intro c hc
      simp only [List.mem_cons, List.not_mem_nil, or_false] at hc
      rcases hc with h | h
      · subst h; trivial
      · subst h; trivial)⟩

/-- C6: while Faulted, every doom_init call fails fast with -1, changes no
state (shim or engine globals) and invokes no engine entry point, for any
path; doom_reset clears the session to Uninitialized, and an initialize
with a present path after the reset does invoke the engine's start-up
entry point D_DoomMain. -/
theorem faulted_init_lockout (s : DoomState) (hs : s.g_inited = -1) :
    (∀ p out, doom_init s p out = (-1, s, [])) ∧
    (doom_reset s).g_inited = 0 ∧
    (∀ path out,
      ExtCall.dDoomMain ∈ (doom_init (doom_reset s) (some path) out).2.2) := by
  refine ⟨?_, rfl, ?_⟩
  · intro p out; simp [doom_init, hs]
  · intro path out
    cases out <;> simp [doom_init, doom_reset]

/-- C6 witness: lockout at a concrete Faulted session, then reset and a
start-up-attempting initialize. -/
theorem faulted_init_lockout_witness :
    doom_init sFaulted (some "doom.wad") (RunOutcome.normal id id) = (-1, sFaulted, []) ∧
    (doom_reset sFaulted).g_inited = 0 ∧
    ExtCall.dDoomMain ∈
      (doom_init (doom_reset sFaulted) (some "doom.wad") (RunOutcome.normal id id)).2.2 :=
  ⟨(faulted_init_lockout sFaulted rfl).1 (some "doom.wad") (RunOutcome.normal id id),
   (faulted_init_lockout sFaulted rfl).2.1,
   (faulted_init_lockout sFaulted rfl).2.2 "doom.wad" (RunOutcome.normal id id)⟩

/-- C5 counterexample: doom_shutdown is NOT a no-op while Faulted — from a
Faulted session (g_inited = -1) it changes the state (to Uninitialized) and
calls I_ShutdownSound, because the source's `if (!g_inited) return;` early
return only fires when g_inited == 0. -/
theorem shutdown_faulted_not_noop :
    doom_shutdown sFaulted ≠ (sFaulted, []) ∧
    (doom_shutdown sFaulted).2 = [ExtCall.iShutdownSound] ∧
    (doom_shutdown sFaulted).1.g_inited = 0 := by
  refine ⟨?_, rfl, rfl⟩
  intro h
  have : (doom_shutdown sFaulted).1.g_inited = sFaulted.g_inited := by rw [h]
  simp [doom_shutdown, sFaulted, s0] at this

/-- C5 amended: doom_shutdown is a no-op exactly when the session is
Uninitialized (g_inited = 0); when Ready or Faulted (g_inited ≠ 0) it
tears down audio only — its sole engine call is I_ShutdownSound, never the
process-terminating I_Quit — and transitions the session to
Uninitialized. -/
theorem shutdown_behavior (s : DoomState) :
    (s.g_inited = 0 → doom_shutdown s = (s, [])) ∧
    (s.g_inited ≠ 0 →
      doom_shutdown s = ({ s with g_inited := 0 }, [ExtCall.iShutdownSound]) ∧
      ExtCall.iQuit ∉ (doom_shutdown s).2) := by
  constructor
  · intro h; simp [doom_shutdown, h]
  · intro h
    refine ⟨by simp [doom_shutdown, h], ?_⟩
    simp [doom_shutdown, h]

/-- C5 witness: shutdown at a concrete Uninitialized session and at a
concrete Faulted session. -/
theorem shutdown_behavior_witness :
    doom_shutdown s0 = (s0, []) ∧
    doom_shutdown sFaulted =
      ({ sFaulted with g_inited := 0 }, [ExtCall.iShutdownSound]) :=
  ⟨(shutdown_behavior s0).1 rfl,
   ((shutdown_behavior sFaulted).2 (by decide)).1⟩

/-- C3 counterexample: an initialize call with an empty (non-null) path
from Uninitialized does not fail immediately — it builds argv, arms the
guards and enters engine start-up (the trace shows D_DoomMain invoked), and
it mutates the session (here the engine aborts start-up via I_Error and the
session becomes Faulted); moreover with a null path while Ready the call
returns 0, not -1. -/
theorem empty_path_init_not_immediate_failure :
    (doom_init s0 (some "") (RunOutcome.swTrap id)).2.1 ≠ s0 ∧
    (doom_init s0 (some "") (RunOutcome.swTrap id)).2.2 = [ExtCall.dDoomMain] ∧
    (doom_init sReady none (RunOutcome.normal id id)).1 = 0 := by
  refine ⟨?_, rfl, rfl⟩
  intro h
  have : (doom_init s0 (some "") (RunOutcome.swTrap id)).2.1.g_inited = s0.g_inited := by
    rw [h]
  simp [doom_init, s0, eng0] at this

/-- C3 amended: only an absent (null) path is rejected, and only when the
session is Uninitialized: then doom_init returns -1 immediately, leaves the
state unchanged and invokes no engine entry point.  An empty-but-present
path is not validated and proceeds to start-up; while Ready or Faulted the
path is not examined at all. -/
theorem null_path_init_fails (s : DoomState) (hs : s.g_inited = 0)
    (out : RunOutcome) :
    doom_init s none out = (-1, s, []) := by
  simp [doom_init, hs]

/-- C3 witness: a null-path initialize at the concrete start state. -/
theorem null_path_init_fails_witness :
    doom_init s0 none (RunOutcome.normal id id) = (-1, s0, []) :=
  null_path_init_fails s0 rfl (RunOutcome.normal id id)

/-- Holds of an API call iff it is not an initialize call. -/
def noInitCall : ApiCall → Prop
  | .init _ _ => False
  | _ => True

/-- In any sequence free of initialize calls, starting Uninitialized, the
session stays Uninitialized. -/
theorem run_noinit_keeps_uninit (cs : List ApiCall) :
    ∀ s : DoomState, s.g_inited = 0 → (∀ c ∈ cs, noInitCall c) →
      (run s cs).g_inited = 0 := by
  induction cs with
  | nil => intro s hs _; exact hs
  | cons c cs ih =>
    intro s hs hcs
    have hc := hcs c (List.mem_cons_self c cs)
    have step0 : (apiStep s c).g_inited = 0 := by
      cases c with
      | init p out => exact hc.elim
      | tick out => simp [apiStep, doom_tick, hs]
      | shutdown => simp [apiStep, doom_shutdown, hs]
      | keyDown k => simpa [apiStep, doom_key_down] using hs
      | keyUp k => simpa [apiStep, doom_key_up] using hs
      | reset => rfl
    have : run s (c :: cs) = run (apiStep s c) cs := by
      simp [run, List.foldl_cons]
    rw [this]
    exact ih (apiStep s c) step0
      (fun c2 hc2 => hcs c2 (List.mem_cons_of_mem _ hc2))

/-- C4 amended: for every sequence of calls in which initialize has never
been called, the session stays Uninitialized, doom_is_alive is false, and
doom_tick and doom_shutdown are no-ops (state unchanged, no engine entry
point invoked); doom_key_down and doom_key_up, however, are NOT no-ops —
they still append their mapped press/release events to the engine's event
queue. -/
theorem uninitialized_calls_noop (s : DoomState) (hs : s.g_inited = 0)
    (cs : List ApiCall) (hcs : ∀ c ∈ cs, noInitCall c) :
    (run s cs).g_inited = 0 ∧
    doom_is_alive (run s cs) = false ∧
    (∀ out, doom_tick (run s cs) out = (run s cs, [])) ∧
    doom_shutdown (run s cs) = (run s cs, []) ∧
    (∀ k, doom_key_down (run s cs) k =
      ({ run s cs with eng := { (run s cs).eng with
          events := (run s cs).eng.events ++ [⟨EvType.keydown, map_ubo_key k, 0, 0⟩] } },
       [ExtCall.dPostEvent ⟨EvType.keydown, map_ubo_key k, 0, 0⟩])) ∧
    (∀ k, doom_key_up (run s cs) k =
      ({ run s cs with eng := { (run s cs).eng with
          events := (run s cs).eng.events ++ [⟨EvType.keyup, map_ubo_key k, 0, 0⟩] } },
       [ExtCall.dPostEvent ⟨EvType.keyup, map_ubo_key k, 0, 0⟩])) := by
  have h0 := run_noinit_keeps_uninit cs s hs hcs
  refine ⟨h0, ?_, ?_, ?_, ?_, ?_⟩
  · simp [doom_is_alive, h0]
  · intro out; simp [doom_tick, h0]
  · simp [doom_shutdown, h0]
  · intro k; rfl
  · intro k; rfl

/-- C4 counterexample: the claim that keyDown before any initialize is a
no-op delivering no event is false — at the start state doom_key_down 7
changes the state, appending one event to the engine queue. -/
theorem keydown_before_init_posts_event :
    (doom_key_down s0 7).1 ≠ s0 ∧
    (doom_key_down s0 7).1.eng.events = [⟨EvType.keydown, KEY_ESCAPE, 0, 0⟩] ∧
    (doom_key_down s0 7).2 = [ExtCall.dPostEvent ⟨EvType.keydown, KEY_ESCAPE, 0, 0⟩] := by
  refine ⟨?_, by rfl, by rfl⟩
  intro h
  have : (doom_key_down s0 7).1.eng.events = s0.eng.events := by rw [h]
  simp [doom_key_down, s0, eng0] at this

/-- C4 witness: a concrete initialize-free sequence (tick, shutdown,
keyDown) from the start state leaves the session Uninitialized with
doom_is_alive false, and tick stays a no-op afterwards. -/
theorem uninitialized_calls_noop_witness :
    (run s0 [ApiCall.tick (RunOutcome.normal id id), ApiCall.shutdown,
             ApiCall.keyDown 7]).g_inited = 0 ∧
    doom_is_alive (run s0 [ApiCall.tick (RunOutcome.normal id id), ApiCall.shutdown,
             ApiCall.keyDown 7]) = false ∧
    doom_tick (run s0 [ApiCall.tick (RunOutcome.normal id id), ApiCall.shutdown,
             ApiCall.keyDown 7]) (RunOutcome.normal id id) =
      (run s0 [ApiCall.tick (RunOutcome.normal id id), ApiCall.shutdown,
             ApiCall.keyDown 7], []) := by
  have h := uninitialized_calls_noop s0 rfl
    [ApiCall.tick (RunOutcome.normal id id), ApiCall.shutdown, ApiCall.keyDown 7]
    (by
      intro c hc
      simp only [List.mem_cons, List.not_mem_nil, or_false] at hc
      rcases hc with h | h | h
      · subst h; trivial
      · subst h; trivial
      · subst h; trivial)
  exact ⟨h.1, h.2.1, h.2.2.1 (RunOutcome.normal id id)⟩

/-- C1: if a hardware trap (SIGSEGV/SIGBUS) or the software trap (I_Error
longjmp) fires at any point of the doom_tick sequence (any incomplete
engine effects f), the call returns with the session Faulted
(g_inited = -1, doom_is_alive false), both guards disarmed, the engine
globals left exactly at the trap's incomplete effects (no rollback), and
every subsequent doom_tick call is a no-op (state unchanged, no engine
entry point invoked). -/
theorem step_fault_containment (s : DoomState)
    (f : EngineGlobals → EngineGlobals) (out : RunOutcome)
    (hs : s.g_inited = 1)
    (hout : out = RunOutcome.hwTrap f ∨ out = RunOutcome.swTrap f) :
    (doom_tick s out).1.g_inited = -1 ∧
    doom_is_alive (doom_tick s out).1 = false ∧
    (doom_tick s out).1.ubo_error_jmp_valid = 0 ∧
    (doom_tick s out).1.g_crash_jmp_valid = 0 ∧
    (doom_tick s out).1.eng = f s.eng ∧
    (∀ out2, doom_tick (doom_tick s out).1 out2 = ((doom_tick s out).1, [])) := by
  have hres : (doom_tick s out).1 =
      { s with ubo_error_jmp_valid := 0, g_crash_jmp_valid := 0,
               eng := f s.eng, g_inited := -1 } := by
    rcases hout with h | h <;> subst h <;> simp [doom_tick, hs]
  refine ⟨by rw [hres], by rw [hres]; rfl, by rw [hres], by rw [hres],
          by rw [hres], ?_⟩
  intro out2
  rw [hres]
  simp [doom_tick]

/-- C1 witness: a hardware trap at a concrete Ready session. -/
theorem step_fault_containment_witness :
    (doom_tick sReady (RunOutcome.hwTrap id)).1.g_inited = -1 ∧
    doom_is_alive (doom_tick sReady (RunOutcome.hwTrap id)).1 = false ∧
    (doom_tick sReady (RunOutcome.hwTrap id)).1.ubo_error_jmp_valid = 0 ∧
    (doom_tick sReady (RunOutcome.hwTrap id)).1.g_crash_jmp_valid = 0 ∧
    (doom_tick sReady (RunOutcome.hwTrap id)).1.eng = id sReady.eng ∧
    (∀ out2, doom_tick (doom_tick sReady (RunOutcome.hwTrap id)).1 out2 =
      ((doom_tick sReady (RunOutcome.hwTrap id)).1, [])) :=
  step_fault_containment sReady id (RunOutcome.hwTrap id) rfl (Or.inl rfl)

/-- C2: starting from any host-boundary state (both resumption-point
validity flags zero), every doom_init call and every doom_tick call —
success, trap-fired or early return — leaves both ubo_error_jmp_valid and
g_crash_jmp_valid zero when control returns to the host. -/
theorem guards_disarmed_on_exit (s : DoomState)
    (h1 : s.ubo_error_jmp_valid = 0) (h2 : s.g_crash_jmp_valid = 0)
    (p : Option String) (out : RunOutcome) :
    ((doom_init s p out).2.1.ubo_error_jmp_valid = 0 ∧
     (doom_init s p out).2.1.g_crash_jmp_valid = 0) ∧
    ((doom_tick s out).1.ubo_error_jmp_valid = 0 ∧
     (doom_tick s out).1.g_crash_jmp_valid = 0) := by
  constructor
  · unfold doom_init
    split_ifs with ha hb
    · exact ⟨h1, h2⟩
    · exact ⟨h1, h2⟩
    · cases p with
      | none => exact ⟨h1, h2⟩
      | some path => cases out <;> exact ⟨rfl, rfl⟩
  · unfold doom_tick
    split_ifs with ha
    · cases out <;> exact ⟨rfl, rfl⟩
    · exact ⟨h1, h2⟩

/-- C2 witness: a successful initialize and a (no-op) tick at the concrete
start state leave both guard flags zero. -/
theorem guards_disarmed_on_exit_witness :
    (((doom_init s0 (some "doom.wad") (RunOutcome.normal id id)).2.1.ubo_error_jmp_valid = 0 ∧
      (doom_init s0 (some "doom.wad") (RunOutcome.normal id id)).2.1.g_crash_jmp_valid = 0) ∧
     ((doom_tick s0 (RunOutcome.normal id id)).1.ubo_error_jmp_valid = 0 ∧
      (doom_tick s0 (RunOutcome.normal id id)).1.g_crash_jmp_valid = 0)) :=
  guards_disarmed_on_exit s0 rfl rfl (some "doom.wad") (RunOutcome.normal id id)

/-- C9: every doom_key_down call appends exactly one press event to the
engine's event queue, carrying the keycode map_ubo_key k, and performs
exactly one queue append (one D_PostEvent call); the logical-key mapping is
total: key 7 (Escape) maps to KEY_ESCAPE and every out-of-range key maps to
the neutral code 0. -/
theorem key_down_posts_one_mapped_event (s : DoomState) (k : Int) :
    doom_key_down s k =
      ({ s with eng := { s.eng with
          events := s.eng.events ++ [⟨EvType.keydown, map_ubo_key k, 0, 0⟩] } },
       [ExtCall.dPostEvent ⟨EvType.keydown, map_ubo_key k, 0, 0⟩]) ∧
    map_ubo_key 7 = KEY_ESCAPE ∧
    (∀ k2 : Int, k2 < 1 ∨ 7 < k2 → map_ubo_key k2 = 0) := by
  refine ⟨rfl, rfl, ?_⟩
  intro k2 hk
  have h1 : k2 ≠ 1 := by omega
  have h2 : k2 ≠ 2 := by omega
  have h3 : k2 ≠ 3 := by omega
  have h4 : k2 ≠ 4 := by omega
  have h5 : k2 ≠ 5 := by omega
  have h6 : k2 ≠ 6 := by omega
  have h7 : k2 ≠ 7 := by omega
  simp [map_ubo_key, h1, h2, h3, h4, h5, h6, h7]

/-- C9 witness: keyDown(Escape) at the start state posts exactly one press
event of the mapped escape code, and an unrecognized key (42) maps to 0. -/
theorem key_down_posts_one_mapped_event_witness :
    (doom_key_down s0 7).2 = [ExtCall.dPostEvent ⟨EvType.keydown, KEY_ESCAPE, 0, 0⟩] ∧
    map_ubo_key 42 = 0 := by
  have h := key_down_posts_one_mapped_event s0 7
  refine ⟨?_, h.2.2 42 (by norm_num)⟩
  rw [h.1]
  simp only [h.2.1]

/-- After n loop iterations, every byte of an already-written pixel i < n
holds the palette lookup for that pixel (offset 3 gets 255). -/
theorem convertLoop_written (pal src dst : Nat → Nat) :
    ∀ n i c, c < 4 → i < n →
      convertLoop pal src dst n (i * 4 + c) =
        (if c = 3 then 255 else pal (src i * 3 + c)) := by
  intro n
  induction n with
  | zero => intro i c _ hi; omega
  | succ n ih =>
    intro i c hc hi
    have e : convertLoop pal src dst (n + 1) =
        writePixel pal src (convertLoop pal src dst n) n := rfl
    by_cases hin : i = n
    · subst hin
      rw [e]
      unfold writePixel
      interval_cases c <;> split_ifs <;>
        first | rfl | contradiction | omega
    · have w1 : i * 4 + c ≠ n * 4 := by omega
      have w2 : i * 4 + c ≠ n * 4 + 1 := by omega
      have w3 : i * 4 + c ≠ n * 4 + 2 := by omega
      have w4 : i * 4 + c ≠ n * 4 + 3 := by omega
      rw [e]
      unfold writePixel
      rw [if_neg w1, if_neg w2, if_neg w3, if_neg w4]
      exact ih i c hc (by omega)

/-- C8: when a palette is set, I_FinishUpdate writes, for every pixel i of
the 320x200 frame with index byte src i, exactly the 4 bytes
(pal (src i * 3), pal (src i * 3 + 1), pal (src i * 3 + 2), 255) at offsets
i*4 .. i*4+3 of the output buffer; when no palette is set (after the lazy
init), it performs no write and the prior buffer is preserved
byte-for-byte. -/
theorem frame_conversion (vs : VideoState) (wadPal src dst : Nat → Nat) :
    (∀ pal, (vsAfterInit vs wadPal).g_palette = some pal →
      ∀ i, i < 320 * 200 →
        (I_FinishUpdate vs wadPal src dst).2 (i * 4) = pal (src i * 3) ∧
        (I_FinishUpdate vs wadPal src dst).2 (i * 4 + 1) = pal (src i * 3 + 1) ∧
        (I_FinishUpdate vs wadPal src dst).2 (i * 4 + 2) = pal (src i * 3 + 2) ∧
        (I_FinishUpdate vs wadPal src dst).2 (i * 4 + 3) = 255) ∧
    ((vsAfterInit vs wadPal).g_palette = none →
      (I_FinishUpdate vs wadPal src dst).2 = dst) := by
  constructor
  · intro pal hpal i hi
    have hout : (I_FinishUpdate vs wadPal src dst).2 =
        convertLoop pal src dst (320 * 200) := by
      unfold I_FinishUpdate
      simp [hpal]
    have q0 := convertLoop_written pal src dst (320 * 200) i 0 (by norm_num) hi
    have q1 := convertLoop_written pal src dst (320 * 200) i 1 (by norm_num) hi
    have q2 := convertLoop_written pal src dst (320 * 200) i 2 (by norm_num) hi
    have q3 := convertLoop_written pal src dst (320 * 200) i 3 (by norm_num) hi
    refine ⟨?_, ?_, ?_, ?_⟩
    · rw [hout]; simpa using q0
    · rw [hout]; simpa using q1
    · rw [hout]; simpa using q2
    · rw [hout]; simpa using q3
  · intro hnone
    unfold I_FinishUpdate
    simp [hnone]

/-- Witness palette: entry 5 is the RGB triple (10, 20, 30). -/
def palW : Nat → Nat :=
  fun j => if j = 15 then 10 else if j = 16 then 20 else if j = 17 then 30 else 0

/-- Witness frame: every pixel carries index 5. -/
def srcW : Nat → Nat := fun _ => 5

/-- Witness prior output-buffer contents. -/
def dstW : Nat → Nat := fun _ => 99

/-- Witness video state with the palette set. -/
def vsW : VideoState := { g_inited := true, g_palette := some palW }

/-- Witness video state with no palette. -/
def vsN : VideoState := { g_inited := true, g_palette := none }

/-- C8 witness: pixel 0 of a frame of index 5 with palette entry 5 =
(10,20,30) converts to bytes (10,20,30,255); with no palette the prior
buffer is returned unchanged. -/
theorem frame_conversion_witness :
    (I_FinishUpdate vsW palW srcW dstW).2 0 = 10 ∧
    (I_FinishUpdate vsW palW srcW dstW).2 1 = 20 ∧
    (I_FinishUpdate vsW palW srcW dstW).2 2 = 30 ∧
    (I_FinishUpdate vsW palW srcW dstW).2 3 = 255 ∧
    (I_FinishUpdate vsN palW srcW dstW).2 = dstW := by
  have h := (frame_conversion vsW palW srcW dstW).1 palW rfl 0 (by norm_num)
  have hn := (frame_conversion vsN palW srcW dstW).2 rfl
  refine ⟨?_, ?_, ?_, ?_, hn⟩
  · simpa [palW, srcW] using h.1
  · simpa [palW, srcW] using h.2.1
  · simpa [palW, srcW] using h.2.2.1
  · simpa using h.2.2.2

end UboDoom
